import Mathlib

/-!
Verification of `src/pages/Article/List/index.tsx` of `veact-admin`: the
article-list admin screen. The component composes filter-parameter state,
a paginated remote list fetch, and a confirmation-gated bulk state update.
We embed the component as a pure event-step function over an explicit
component state, with remote calls reified as emitted `Request` values.
-/

namespace VeactAdmin

/-- A JavaScript value as it occurs in the request-parameter objects of the
page: `undefined`, a string, or a number. -/
inductive JsVal
  | undef
  | vstr (s : String)
  | vnum (n : Int)
deriving DecidableEq, Repr

/-- `SELECT_ALL_VALUE` (line 40): the sentinel meaning "no constraint". -/
def SELECT_ALL_VALUE : String := "ALL"

/-- A JavaScript object with string keys, as an association list in key
insertion order. JS objects never hold a key twice; theorems that need
this assume `Nodup` on the keys. -/
abbrev ObjMap := List (String × JsVal)

/-- Property lookup `o[k]`: the first entry with key `k`. -/
def lookupKey : ObjMap → String → Option JsVal
  | [], _ => none
  | (k, v) :: rest, key => if k = key then some v else lookupKey rest key

/-- Property write `o[k] = v`: overwrite the existing entry in place, else
append (JS object-literal / spread semantics). -/
def setKey : ObjMap → String → JsVal → ObjMap
  | [], key, val => [(key, val)]
  | (k, v) :: rest, key, val =>
    if k = key then (k, val) :: rest else (k, v) :: setKey rest key val

/-- Object spread `{...a, ...b}`: entries of `b` written over `a` in order. -/
def mergeObj (a b : ObjMap) : ObjMap :=
  b.foldl (fun acc kv => setKey acc kv.1 kv.2) a

/-- Whether `o[k]` is present and not `undefined`; a query parameter whose
value is `undefined` is not sent by the request layer. -/
def hasDefinedKey (o : ObjMap) (k : String) : Bool :=
  match lookupKey o k with
  | some JsVal.undef => false
  | some _ => true
  | none => false

/-- The entries of `o` that an HTTP request actually carries (defined values). -/
def definedEntries (o : ObjMap) : ObjMap :=
  o.filter (fun kv => kv.2 ≠ JsVal.undef)

/-- `getParams[paramKey] === SELECT_ALL_VALUE` (line 93): strict equality
with the string sentinel. -/
def isAllValue : JsVal → Bool
  | JsVal.vstr s => s == SELECT_ALL_VALUE
  | _ => false

/-- The reactive filter params (lines 41-49, 78): seven fields, in the
declaration order of `DEFAULT_FILTER_PARAMS`. -/
structure FilterParams where
  sort : JsVal
  tag_slug : JsVal
  category_slug : JsVal
  lang : JsVal
  public : JsVal
  origin : JsVal
  state : JsVal
deriving DecidableEq, Repr

/-- The names of the filter-param keys, in declaration order. -/
def filterKeyNames : List String :=
  ["sort", "tag_slug", "category_slug", "lang", "public", "origin", "state"]

/-- The filter params viewed as the JS object spread into the request
(`...filterParams`, line 89). -/
def FilterParams.toObj (f : FilterParams) : ObjMap :=
  [("sort", f.sort), ("tag_slug", f.tag_slug), ("category_slug", f.category_slug),
   ("lang", f.lang), ("public", f.public), ("origin", f.origin), ("state", f.state)]

/-- A name for each filter field, for the per-field select handlers. -/
inductive FilterField
  | sort
  | tag_slug
  | category_slug
  | lang
  | public
  | origin
  | state
deriving DecidableEq, Repr

/-- The key name of a filter field. -/
def FilterField.keyName : FilterField → String
  | .sort => "sort"
  | .tag_slug => "tag_slug"
  | .category_slug => "category_slug"
  | .lang => "lang"
  | .public => "public"
  | .origin => "origin"
  | .state => "state"

/-- Read one filter field. -/
def FilterParams.get (f : FilterParams) : FilterField → JsVal
  | .sort => f.sort
  | .tag_slug => f.tag_slug
  | .category_slug => f.category_slug
  | .lang => f.lang
  | .public => f.public
  | .origin => f.origin
  | .state => f.state

/-- Write one filter field (the per-select `onChange` handlers,
lines 169-285). -/
def FilterParams.set (f : FilterParams) : FilterField → JsVal → FilterParams
  | .sort, v => { f with sort := v }
  | .tag_slug, v => { f with tag_slug := v }
  | .category_slug, v => { f with category_slug := v }
  | .lang, v => { f with lang := v }
  | .public, v => { f with public := v }
  | .origin, v => { f with origin := v }
  | .state, v => { f with state := v }

/-- Modelled from the spec: `SortTypeWithHot.Desc` comes from
`@/constants/sort`, which is not under `src/`; the spec names it only as
the default sort order. We model it as a numeric enum value (in
particular it is not the string sentinel `'ALL'`). -/
def SortTypeWithHot.Desc : JsVal := JsVal.vnum 2

/-- `DEFAULT_FILTER_PARAMS` (lines 41-49). -/
def DEFAULT_FILTER_PARAMS : FilterParams :=
  { sort := SortTypeWithHot.Desc
    tag_slug := JsVal.vstr SELECT_ALL_VALUE
    category_slug := JsVal.vstr SELECT_ALL_VALUE
    lang := JsVal.vstr SELECT_ALL_VALUE
    public := JsVal.vstr SELECT_ALL_VALUE
    origin := JsVal.vstr SELECT_ALL_VALUE
    state := JsVal.vstr SELECT_ALL_VALUE }

/-- The request-parameter object built by `fetchData` (lines 86-96):
`{...params, ...filterParams, keyword: Boolean(kw) ? kw : undefined}`,
then every key whose value is `'ALL'` deleted. -/
def buildGetParams (params : ObjMap) (filter : FilterParams) (keyword : String) : ObjMap :=
  let g := mergeObj params filter.toObj
  let g := setKey g "keyword"
    (if keyword = "" then JsVal.undef else JsVal.vstr keyword)
  g.filter (fun kv => !(isAllValue kv.2))

/-- Modelled from the spec: `PublishState` comes from `@/constants/publish`,
which is not under `src/`. The spec glossary says: "Publish state: one of
Draft / Published / Recycle (bin)". -/
inductive PublishState
  | Draft
  | Published
  | Recycle
deriving DecidableEq, Repr

/-- An article record; per-row actions use its id (`article._id!`, line 351). -/
structure Article where
  _id : String
deriving DecidableEq, Repr

/-- The pagination cursor of a list response. -/
structure Pagination where
  current_page : Int
  per_page : Int
  total : Int
deriving DecidableEq, Repr

/-- `ResponsePaginationData<Article>`: what a resolved `getArticles` carries. -/
structure FetchResult where
  data : List Article
  pagination : Option Pagination
deriving DecidableEq, Repr

/-- A remote call emitted by the component, with its arguments. -/
inductive Request
  | getArticles (params : ObjMap)
  | getCategories (params : ObjMap)
  | getTags (params : ObjMap)
  | patchArticlesState (ids : List String) (st : PublishState)
deriving DecidableEq, Repr

/-- The component's state: the reactive cells of lines 52-84 plus, for the
temporal claims, the pending confirmation modal and the outstanding
(in-flight) remote requests. -/
structure CState where
  article_data : List Article
  article_pagination : Option Pagination
  categoriesTree : List String
  tags : List String
  serarchKeyword : String
  filterParams : FilterParams
  selectedIds : List String
  loading : Bool
  loadingCategory : Bool
  loadingTag : Bool
  inflightArticles : Bool
  inflightCategories : Bool
  inflightTags : Bool
  pendingModal : Option (List String × PublishState)
  patchInflight : Bool
deriving DecidableEq, Repr

/-- `fetchData` (lines 86-105): build the request params, start the list
request under the `loading` flag. The response is handled by the
`articlesResolved` event below. -/
def fetchData (s : CState) (params : ObjMap) : CState × List Request :=
  ({ s with loading := true, inflightArticles := true },
   [Request.getArticles (buildGetParams params s.filterParams s.serarchKeyword)])

/-- `fetchCategories` (lines 61-65). -/
def fetchCategories (s : CState) : CState × List Request :=
  ({ s with loadingCategory := true, inflightCategories := true },
   [Request.getCategories [("per_page", JsVal.vnum 50)]])

/-- `fetchTags` (lines 70-74). -/
def fetchTags (s : CState) : CState × List Request :=
  ({ s with loadingTag := true, inflightTags := true },
   [Request.getTags [("per_page", JsVal.vnum 50)]])

/-- The params `refreshData` passes (lines 121-126):
`{ page: pagination?.current_page, per_page: pagination?.per_page }` —
with no pagination yet, both keys carry `undefined`. -/
def refreshParams (s : CState) : ObjMap :=
  [("page",
    match s.article_pagination with
    | some p => JsVal.vnum p.current_page
    | none => JsVal.undef),
   ("per_page",
    match s.article_pagination with
    | some p => JsVal.vnum p.per_page
    | none => JsVal.undef)]

/-- `refreshData` (lines 121-126). -/
def refreshData (s : CState) : CState × List Request :=
  fetchData s (refreshParams s)

/-- `handleStateChange` (lines 128-139): open the confirmation modal; the
remote patch happens only in the modal's `onOk` (the `modalOk` event). -/
def handleStateChange (s : CState) (ids : List String) (st : PublishState) :
    CState × List Request :=
  ({ s with pendingModal := some (ids, st) }, [])

/-- `resetParamsAndRefresh` (lines 107-119): clear the keyword; if the
filter params already equal the defaults fetch directly, else restore all
fields in one batch — the `useWatch` on `filterParams` (line 141) then
fires once and runs `fetchData()`. -/
def resetParamsAndRefresh (s : CState) : CState × List Request :=
  let s1 := { s with serarchKeyword := "" }
  if s1.filterParams = DEFAULT_FILTER_PARAMS then
    fetchData s1 []
  else
    fetchData { s1 with filterParams := DEFAULT_FILTER_PARAMS } []

/-- `disabled={!selectedIds.value.length}` on the bulk `DropdownMenu`
(line 321). -/
def dropdownDisabled (s : CState) : Bool := s.selectedIds.isEmpty

/-- The bulk menu options (lines 322-338): label and the target state each
option hands to `handleStateChange`. -/
def dropdownMenuOptions : List (String × PublishState) :=
  [("退为草稿", PublishState.Draft),
   ("直接发布", PublishState.Published),
   ("移回收站", PublishState.Recycle)]

/-- The three target states of the bulk menu, in option order. -/
def dropdownStateTargets : List PublishState := dropdownMenuOptions.map Prod.snd

/-- The user-visible and asynchronous events the component reacts to. -/
inductive Event
  | mounted
  | changeFilter (fld : FilterField) (v : JsVal)
  | setKeyword (kw : String)
  | search
  | reset
  | paginate (page pageSize : Int)
  | select (ids : List String)
  | bulkMenu (st : PublishState)
  | rowUpdateState (a : Article) (st : PublishState)
  | modalOk
  | modalCancel
  | articlesResolved (r : FetchResult)
  | categoriesResolved (tree : List String)
  | tagsResolved (ts : List String)
  | patchResolved
deriving DecidableEq, Repr

/-- One step of the component: the handler the event runs (lines 141-147
for lifecycle and watcher, 162-353 for the rendered handlers), returning
the new state and the remote requests started. -/
def step (s : CState) : Event → CState × List Request
  | .mounted =>
      let (s1, r1) := fetchData s []
      let (s2, r2) := fetchCategories s1
      let (s3, r3) := fetchTags s2
      (s3, r1 ++ r2 ++ r3)
  | .changeFilter fld v =>
      if v = s.filterParams.get fld then (s, [])
      else fetchData { s with filterParams := s.filterParams.set fld v } []
  | .setKeyword kw => ({ s with serarchKeyword := kw }, [])
  | .search => fetchData s []
  | .reset => resetParamsAndRefresh s
  | .paginate page pageSize =>
      fetchData s [("page", JsVal.vnum page), ("per_page", JsVal.vnum pageSize)]
  | .select ids => ({ s with selectedIds := ids }, [])
  | .bulkMenu st =>
      if s.selectedIds.isEmpty then (s, [])
      else handleStateChange s s.selectedIds st
  | .rowUpdateState a st => handleStateChange s [a._id] st
  | .modalOk =>
      match s.pendingModal with
      | some (ids, st) =>
          ({ s with pendingModal := none, patchInflight := true },
           [Request.patchArticlesState ids st])
      | none => (s, [])
  | .modalCancel => ({ s with pendingModal := none }, [])
  | .articlesResolved r =>
      ({ s with article_data := r.data, article_pagination := r.pagination,
                loading := false, inflightArticles := false }, [])
  | .categoriesResolved tree =>
      ({ s with categoriesTree := tree,
                loadingCategory := false, inflightCategories := false }, [])
  | .tagsResolved ts =>
      ({ s with tags := ts, loadingTag := false, inflightTags := false }, [])
  | .patchResolved =>
      if s.patchInflight then refreshData { s with patchInflight := false }
      else (s, [])

/-- The component's state right after initialisation (lines 52-84). -/
def initialState : CState :=
  { article_data := []
    article_pagination := none
    categoriesTree := []
    tags := []
    serarchKeyword := ""
    filterParams := DEFAULT_FILTER_PARAMS
    selectedIds := []
    loading := false
    loadingCategory := false
    loadingTag := false
    inflightArticles := false
    inflightCategories := false
    inflightTags := false
    pendingModal := none
    patchInflight := false }

/-- The states the component can be in. -/
inductive Reachable : CState → Prop
  | init : Reachable initialState
  | next (s : CState) (e : Event) : Reachable s → Reachable (step s e).1

/-! ### Object-map lemmas -/

theorem lookup_setKey (o : ObjMap) (k : String) (v : JsVal) (k' : String) :
    lookupKey (setKey o k v) k' = if k = k' then some v else lookupKey o k' := by
  induction o with
  | nil => simp [setKey, lookupKey]
  | cons hd tl ih =>
    obtain ⟨k1, v1⟩ := hd
    by_cases h1 : k1 = k
    · subst h1
      rw [show setKey ((k1, v1) :: tl) k1 v = (k1, v) :: tl from by simp [setKey]]
      by_cases h2 : k1 = k' <;> simp [lookupKey, h2]
    · rw [show setKey ((k1, v1) :: tl) k v = (k1, v1) :: setKey tl k v from by
        simp [setKey, h1]]
      by_cases h2 : k1 = k' <;> by_cases h3 : k = k' <;> simp_all [lookupKey]

theorem mem_setKey {kv : String × JsVal} {o : ObjMap} {k : String} {v : JsVal}
    (h : kv ∈ setKey o k v) : kv = (k, v) ∨ kv ∈ o := by
  induction o with
  | nil => simpa [setKey] using h
  | cons hd tl ih =>
    by_cases h1 : hd.1 = k
    · rw [show setKey (hd :: tl) k v = (hd.1, v) :: tl by simp [setKey, h1]] at h
      rcases List.mem_cons.mp h with h2 | h2
      · exact Or.inl (by rw [h2, h1])
      · exact Or.inr (List.mem_cons_of_mem _ h2)
    · rw [show setKey (hd :: tl) k v = hd :: setKey tl k v by
        simp [setKey, h1]] at h
      rcases List.mem_cons.mp h with h2 | h2
      · exact Or.inr (h2 ▸ List.mem_cons_self _ _)
      · rcases ih h2 with h3 | h3
        · exact Or.inl h3
        · exact Or.inr (List.mem_cons_of_mem _ h3)

theorem keys_setKey_subset {a : String} {o : ObjMap} {k : String} {v : JsVal}
    (h : a ∈ (setKey o k v).map Prod.fst) : a = k ∨ a ∈ o.map Prod.fst := by
  rcases List.mem_map.mp h with ⟨kv, hmem, hfst⟩
  rcases mem_setKey hmem with h1 | h1
  · exact Or.inl (by rw [← hfst, h1])
  · exact Or.inr (hfst ▸ List.mem_map_of_mem Prod.fst h1)

theorem nodup_keys_setKey {o : ObjMap} (k : String) (v : JsVal)
    (h : (o.map Prod.fst).Nodup) : ((setKey o k v).map Prod.fst).Nodup := by
  induction o with
  | nil => simp [setKey]
  | cons hd tl ih =>
    simp only [List.map_cons, List.nodup_cons] at h
    by_cases h1 : hd.1 = k
    · rw [show setKey (hd :: tl) k v = (hd.1, v) :: tl by simp [setKey, h1]]
      simpa using h
    · rw [show setKey (hd :: tl) k v = hd :: setKey tl k v by simp [setKey, h1]]
      simp only [List.map_cons, List.nodup_cons]
      refine ⟨fun hc => ?_, ih h.2⟩
      rcases keys_setKey_subset hc with h2 | h2
      · exact h1 h2
      · exact h.1 h2

theorem lookup_mem {o : ObjMap} {k : String} {v : JsVal}
    (h : lookupKey o k = some v) : (k, v) ∈ o := by
  induction o with
  | nil => simp [lookupKey] at h
  | cons hd tl ih =>
    obtain ⟨k1, v1⟩ := hd
    by_cases h1 : k1 = k
    · subst h1
      simp [lookupKey] at h
      simp [h]
    · simp [lookupKey, h1] at h
      exact List.mem_cons_of_mem _ (ih h)

theorem lookup_eq_none_of_not_mem {o : ObjMap} {k : String}
    (h : k ∉ o.map Prod.fst) : lookupKey o k = none := by
  induction o with
  | nil => simp [lookupKey]
  | cons hd tl ih =>
    simp only [List.map_cons, List.mem_cons] at h
    push_neg at h
    have h1 : ¬hd.1 = k := fun hc => h.1 hc.symm
    simp [lookupKey, h1, ih h.2]

theorem mem_mergeObj {kv : String × JsVal} {a b : ObjMap}
    (h : kv ∈ mergeObj a b) : kv ∈ a ∨ kv.1 ∈ b.map Prod.fst := by
  induction b generalizing a with
  | nil => exact Or.inl h
  | cons hd tl ih =>
    rcases ih (a := setKey a hd.1 hd.2) h with h1 | h1
    · rcases mem_setKey h1 with h2 | h2
      · exact Or.inr (by simp [h2])
      · exact Or.inl h2
    · exact Or.inr (by simp [h1])

theorem nodup_keys_mergeObj {a : ObjMap} (b : ObjMap)
    (h : (a.map Prod.fst).Nodup) : ((mergeObj a b).map Prod.fst).Nodup := by
  induction b generalizing a with
  | nil => exact h
  | cons hd tl ih => exact ih (nodup_keys_setKey hd.1 hd.2 h)

theorem lookup_filter_val (q : JsVal → Bool) {o : ObjMap} (k : String)
    (hnd : (o.map Prod.fst).Nodup) :
    lookupKey (o.filter (fun kv => q kv.2)) k =
      (lookupKey o k).bind (fun v => if q v then some v else none) := by
  induction o with
  | nil => simp [lookupKey]
  | cons hd tl ih =>
    obtain ⟨k1, v1⟩ := hd
    simp only [List.map_cons, List.nodup_cons] at hnd
    by_cases hq : q v1
    · by_cases h1 : k1 = k <;>
        simp [List.filter_cons, hq, lookupKey, h1, ih hnd.2]
    · by_cases h1 : k1 = k
      · subst h1
        have hnotin : k1 ∉ (List.filter (fun kv => q kv.2) tl).map Prod.fst := by
          intro hc
          rcases List.mem_map.mp hc with ⟨kv, hkv, hfst⟩
          exact hnd.1
            (hfst ▸ List.mem_map_of_mem Prod.fst (List.mem_of_mem_filter hkv))
        simp [List.filter_cons, hq, lookupKey, lookup_eq_none_of_not_mem hnotin]
      · simp [List.filter_cons, hq, lookupKey, h1, ih hnd.2]

/-! ### `buildGetParams` characterization -/

theorem mergeObj_toObj (p : ObjMap) (f : FilterParams) :
    mergeObj p f.toObj =
      setKey (setKey (setKey (setKey (setKey (setKey (setKey p
        "sort" f.sort) "tag_slug" f.tag_slug) "category_slug" f.category_slug)
        "lang" f.lang) "public" f.public) "origin" f.origin) "state" f.state := rfl

theorem lookup_merge_toObj (p : ObjMap) (f : FilterParams) (fld : FilterField) :
    lookupKey (mergeObj p f.toObj) fld.keyName = some (f.get fld) := by
  cases fld <;>
    simp [mergeObj_toObj, lookup_setKey, FilterField.keyName, FilterParams.get]

theorem lookup_merge_toObj_other (p : ObjMap) (f : FilterParams) (k : String)
    (hk : k ∉ filterKeyNames) :
    lookupKey (mergeObj p f.toObj) k = lookupKey p k := by
  simp only [filterKeyNames, List.mem_cons, List.not_mem_nil, or_false] at hk
  push_neg at hk
  obtain ⟨h1, h2, h3, h4, h5, h6, h7⟩ := hk
  simp [mergeObj_toObj, lookup_setKey, Ne.symm h1, Ne.symm h2, Ne.symm h3,
    Ne.symm h4, Ne.symm h5, Ne.symm h6, Ne.symm h7]

theorem nodup_keys_buildBase (p : ObjMap) (f : FilterParams) (w : JsVal)
    (hp : (p.map Prod.fst).Nodup) :
    ((setKey (mergeObj p f.toObj) "keyword" w).map Prod.fst).Nodup :=
  nodup_keys_setKey _ _ (nodup_keys_mergeObj _ hp)

theorem lookup_buildGetParams (p : ObjMap) (f : FilterParams) (kw : String)
    (k : String) (hp : (p.map Prod.fst).Nodup) :
    lookupKey (buildGetParams p f kw) k =
      (lookupKey (setKey (mergeObj p f.toObj) "keyword"
          (if kw = "" then JsVal.undef else JsVal.vstr kw)) k).bind
        (fun v => if isAllValue v then none else some v) := by
  have hdef : buildGetParams p f kw =
      List.filter (fun kv => !(isAllValue kv.2))
        (setKey (mergeObj p f.toObj) "keyword"
          (if kw = "" then JsVal.undef else JsVal.vstr kw)) := rfl
  rw [hdef, lookup_filter_val (fun v => !(isAllValue v)) k
    (nodup_keys_buildBase p f _ hp)]
  congr 1
  funext v
  by_cases h : isAllValue v <;> simp [h]

theorem lookup_buildGetParams_filterField (p : ObjMap) (f : FilterParams)
    (kw : String) (fld : FilterField) (hp : (p.map Prod.fst).Nodup) :
    lookupKey (buildGetParams p f kw) fld.keyName =
      if isAllValue (f.get fld) then none else some (f.get fld) := by
  rw [lookup_buildGetParams p f kw fld.keyName hp, lookup_setKey]
  have hne : ¬("keyword" = fld.keyName) := by cases fld <;> decide
  rw [if_neg hne, lookup_merge_toObj]
  simp

theorem lookup_buildGetParams_keyword (p : ObjMap) (f : FilterParams)
    (kw : String) (hp : (p.map Prod.fst).Nodup) :
    lookupKey (buildGetParams p f kw) "keyword" =
      if kw = "" then some JsVal.undef
      else if kw = SELECT_ALL_VALUE then none else some (JsVal.vstr kw) := by
  rw [lookup_buildGetParams p f kw "keyword" hp, lookup_setKey, if_pos rfl]
  by_cases h0 : kw = ""
  · simp [h0, isAllValue]
  · by_cases h1 : kw = SELECT_ALL_VALUE <;>
      simp [h0, h1, isAllValue, SELECT_ALL_VALUE]

theorem lookup_buildGetParams_other (p : ObjMap) (f : FilterParams)
    (kw : String) (k : String) (hp : (p.map Prod.fst).Nodup)
    (hk1 : k ∉ filterKeyNames) (hk2 : k ≠ "keyword") :
    lookupKey (buildGetParams p f kw) k =
      (lookupKey p k).bind (fun v => if isAllValue v then none else some v) := by
  rw [lookup_buildGetParams p f kw k hp, lookup_setKey, if_neg (Ne.symm hk2),
    lookup_merge_toObj_other p f k hk1]

theorem buildGetParams_no_all (p : ObjMap) (f : FilterParams) (kw : String) :
    ∀ k v, lookupKey (buildGetParams p f kw) k = some v →
      v ≠ JsVal.vstr SELECT_ALL_VALUE := by
  intro k v hlk hv
  have hmem := lookup_mem hlk
  have hdef : buildGetParams p f kw =
      List.filter (fun kv => !(isAllValue kv.2))
        (setKey (mergeObj p f.toObj) "keyword"
          (if kw = "" then JsVal.undef else JsVal.vstr kw)) := rfl
  rw [hdef] at hmem
  have := (List.mem_filter.mp hmem).2
  rw [hv] at this
  simp [isAllValue] at this

theorem isAllValue_iff (v : JsVal) :
    isAllValue v = true ↔ v = JsVal.vstr SELECT_ALL_VALUE := by
  cases v <;> simp [isAllValue]

theorem resetParamsAndRefresh_spec (s : CState) :
    resetParamsAndRefresh s =
      ({ s with serarchKeyword := "", filterParams := DEFAULT_FILTER_PARAMS,
                loading := true, inflightArticles := true },
       [Request.getArticles (buildGetParams [] DEFAULT_FILTER_PARAMS "")]) := by
  unfold resetParamsAndRefresh fetchData
  by_cases h : s.filterParams = DEFAULT_FILTER_PARAMS <;> simp [h]

/-! ### The claims -/

/-- C1, counterexample: the claim says the request "includes the free-text
keyword if and only if the search keyword string is non-empty", but a
keyword equal to the sentinel string `'ALL'` is non-empty and still
dropped, because the delete loop of `fetchData` (lines 92-96) removes every
key whose value is `'ALL'` — the `keyword` key included. -/
theorem C1_counterexample :
    ¬(("ALL" : String) = "") ∧
      hasDefinedKey (buildGetParams [] DEFAULT_FILTER_PARAMS "ALL") "keyword"
        = false := by
  decide

/-- C1 (amended): for every list fetch, `fetchData` builds the request
object by spreading caller params then filter params (filter params win on
key collision); no key of the result carries the sentinel `'ALL'`; a
filter field not set to `'ALL'` appears with exactly its filter value and
a filter field set to `'ALL'` is absent; and the request includes the
free-text keyword if and only if it is non-empty and not itself the
sentinel `'ALL'`. -/
theorem C1_fetchData_request_params (p : ObjMap) (f : FilterParams)
    (kw : String) (hp : (p.map Prod.fst).Nodup) :
    (∀ k v, lookupKey (buildGetParams p f kw) k = some v →
        v ≠ JsVal.vstr SELECT_ALL_VALUE)
  ∧ (∀ fld : FilterField, f.get fld ≠ JsVal.vstr SELECT_ALL_VALUE →
        lookupKey (buildGetParams p f kw) fld.keyName = some (f.get fld))
  ∧ (∀ fld : FilterField, f.get fld = JsVal.vstr SELECT_ALL_VALUE →
        lookupKey (buildGetParams p f kw) fld.keyName = none)
  ∧ (hasDefinedKey (buildGetParams p f kw) "keyword" = true ↔
        (kw ≠ "" ∧ kw ≠ SELECT_ALL_VALUE))
  ∧ (kw ≠ "" → kw ≠ SELECT_ALL_VALUE →
        lookupKey (buildGetParams p f kw) "keyword" = some (JsVal.vstr kw)) := by
  refine ⟨buildGetParams_no_all p f kw, ?_, ?_, ?_, ?_⟩
  · intro fld hv
    rw [lookup_buildGetParams_filterField p f kw fld hp,
      if_neg (fun h => hv ((isAllValue_iff _).mp h))]
  · intro fld hv
    rw [lookup_buildGetParams_filterField p f kw fld hp,
      if_pos ((isAllValue_iff _).mpr hv)]
  · unfold hasDefinedKey
    rw [lookup_buildGetParams_keyword p f kw hp]
    by_cases h0 : kw = ""
    · simp [h0, SELECT_ALL_VALUE]
    · by_cases h1 : kw = SELECT_ALL_VALUE
      · simp [h0, h1, SELECT_ALL_VALUE]
      · rw [if_neg h0, if_neg h1]
        simp [h0, h1]
  · intro h0 h1
    rw [lookup_buildGetParams_keyword p f kw hp, if_neg h0, if_neg h1]

/-- Witness for C1 at concrete inputs: a caller `page` param, the default
filters, keyword `"hello"`. -/
theorem C1_fetchData_request_params_witness :
    ((([("page", JsVal.vnum 2)] : ObjMap).map Prod.fst).Nodup) ∧
      lookupKey
        (buildGetParams [("page", JsVal.vnum 2)] DEFAULT_FILTER_PARAMS "hello")
        "keyword" = some (JsVal.vstr "hello") :=
  ⟨by decide,
   (C1_fetchData_request_params [("page", JsVal.vnum 2)] DEFAULT_FILTER_PARAMS
       "hello" (by decide)).2.2.2.2 (by decide) (by decide)⟩

/-- C3: the publish state is exactly one of Draft / Published / Recycle,
and the bulk menu (lines 322-338) offers exactly three options, one
targeting each state, in order Draft, Published, Recycle. -/
theorem C3_publish_states_and_menu :
    (∀ st : PublishState, st ∈ dropdownStateTargets)
  ∧ dropdownStateTargets =
      [PublishState.Draft, PublishState.Published, PublishState.Recycle]
  ∧ dropdownStateTargets.Nodup
  ∧ dropdownMenuOptions.length = 3 := by
  refine ⟨?_, rfl, by decide, rfl⟩
  intro st
  cases st <;> decide

/-- C5: when a list fetch resolves, the article state becomes exactly the
response — `article.data := result.data`, `article.pagination :=
result.pagination` in one batched update (lines 98-104) — while every
other component cell is untouched and no request is emitted (the loading
flag drops, closing the `loading.promise`). -/
theorem C5_articles_resolved_sets_exactly (s : CState) (r : FetchResult) :
    (step s (Event.articlesResolved r)).1 =
      { s with article_data := r.data, article_pagination := r.pagination,
               loading := false, inflightArticles := false }
  ∧ (step s (Event.articlesResolved r)).2 = []
  ∧ (step s (Event.articlesResolved r)).1.filterParams = s.filterParams
  ∧ (step s (Event.articlesResolved r)).1.serarchKeyword = s.serarchKeyword
  ∧ (step s (Event.articlesResolved r)).1.selectedIds = s.selectedIds :=
  ⟨rfl, rfl, rfl, rfl, rfl⟩

/-- C6: the filter params hold exactly the keys sort, tag_slug,
category_slug, lang, public, origin, state; every field write and every
component step preserves this key set, and the free-text keyword is not
one of these keys (it is held separately in `serarchKeyword`). -/
theorem C6_filter_key_set :
    DEFAULT_FILTER_PARAMS.toObj.map Prod.fst = filterKeyNames
  ∧ (∀ f : FilterParams, f.toObj.map Prod.fst = filterKeyNames)
  ∧ (∀ (f : FilterParams) (fld : FilterField) (v : JsVal),
      (f.set fld v).toObj.map Prod.fst = filterKeyNames)
  ∧ (∀ (s : CState) (e : Event),
      (step s e).1.filterParams.toObj.map Prod.fst = filterKeyNames)
  ∧ "keyword" ∉ filterKeyNames :=
  ⟨rfl, fun _ => rfl, fun _ _ _ => rfl, fun _ _ => rfl, by decide⟩

/-- C8: `resetParamsAndRefresh` clears the keyword, restores every filter
param to its default, and in both branches (already-default: direct
`fetchData()`; otherwise: the single batched watcher firing) exactly one
list request follows, whose query carries only the default sort — no
other filter and no keyword. -/
theorem C8_reset_and_refresh (s : CState) :
    step s Event.reset =
      ({ s with serarchKeyword := "", filterParams := DEFAULT_FILTER_PARAMS,
                loading := true, inflightArticles := true },
       [Request.getArticles (buildGetParams [] DEFAULT_FILTER_PARAMS "")])
  ∧ definedEntries (buildGetParams [] DEFAULT_FILTER_PARAMS "") =
      [("sort", SortTypeWithHot.Desc)]
  ∧ hasDefinedKey (buildGetParams [] DEFAULT_FILTER_PARAMS "") "keyword"
      = false :=
  ⟨resetParamsAndRefresh_spec s, by decide, by decide⟩

/-- C2: `patchArticlesState` is only ever emitted by the confirmation
modal's `onOk` (the `modalOk` event) against a pending modal;
`handleStateChange` itself only opens the modal and starts no request;
confirming emits exactly the patch and no list fetch; and the list
re-fetch happens on resolution of the patch promise (lines 128-139). -/
theorem C2_patch_confirm_gated :
    (∀ (s : CState) (e : Event) (ids : List String) (st : PublishState),
        Request.patchArticlesState ids st ∈ (step s e).2 →
          e = Event.modalOk ∧ s.pendingModal = some (ids, st))
  ∧ (∀ (s : CState) (ids : List String) (st : PublishState),
        handleStateChange s ids st =
          ({ s with pendingModal := some (ids, st) }, []))
  ∧ (∀ (s : CState) (ids : List String) (st : PublishState),
        s.pendingModal = some (ids, st) →
          step s Event.modalOk =
            ({ s with pendingModal := none, patchInflight := true },
             [Request.patchArticlesState ids st]))
  ∧ (∀ s : CState, s.patchInflight = true →
        (step s Event.patchResolved).2 =
          [Request.getArticles
            (buildGetParams (refreshParams s) s.filterParams
              s.serarchKeyword)]) := by
  refine ⟨?_, fun _ _ _ => rfl, ?_, ?_⟩
  · intro s e ids st h
    cases e with
    | mounted =>
        exfalso
        simp [step, fetchData, fetchCategories, fetchTags] at h
    | changeFilter fld v =>
        exfalso
        simp only [step] at h
        split at h
        · simp at h
        · simp [fetchData] at h
    | setKeyword kw => exfalso; simp [step] at h
    | search => exfalso; simp [step, fetchData] at h
    | reset =>
        exfalso
        simp only [step] at h
        rw [resetParamsAndRefresh_spec] at h
        simp at h
    | paginate page pageSize => exfalso; simp [step, fetchData] at h
    | select ids2 => exfalso; simp [step] at h
    | bulkMenu st2 =>
        exfalso
        simp only [step] at h
        split at h
        · simp at h
        · simp [handleStateChange] at h
    | rowUpdateState a st2 => exfalso; simp [step, handleStateChange] at h
    | modalOk =>
        rcases hpm : s.pendingModal with _ | ⟨ids2, st2⟩
        · exfalso
          simp [step, hpm] at h
        · simp [step, hpm] at h
          obtain ⟨h1, h2⟩ := h
          subst h1
          subst h2
          exact ⟨rfl, rfl⟩
    | modalCancel => exfalso; simp [step] at h
    | articlesResolved r => exfalso; simp [step] at h
    | categoriesResolved tree => exfalso; simp [step] at h
    | tagsResolved ts => exfalso; simp [step] at h
    | patchResolved =>
        exfalso
        simp only [step] at h
        split at h
        · simp [refreshData, fetchData] at h
        · simp at h
  · intro s ids st hpm
    simp [step, hpm]
  · intro s h
    simp [step, h, refreshData, fetchData, refreshParams]

/-- Witness for C2: confirming a pending modal over the initial state, and
a patch resolution re-fetching the list. -/
theorem C2_patch_confirm_gated_witness :
    (Event.modalOk = Event.modalOk ∧
      ({ initialState with
          pendingModal := some (["a"], PublishState.Draft) } : CState).pendingModal
        = some (["a"], PublishState.Draft))
  ∧ (step { initialState with patchInflight := true } Event.patchResolved).2 =
      [Request.getArticles
        (buildGetParams
          (refreshParams { initialState with patchInflight := true })
          ({ initialState with patchInflight := true } : CState).filterParams
          ({ initialState with patchInflight := true } : CState).serarchKeyword)] :=
  ⟨C2_patch_confirm_gated.1
      { initialState with pendingModal := some (["a"], PublishState.Draft) }
      Event.modalOk ["a"] PublishState.Draft (by decide),
   C2_patch_confirm_gated.2.2.2
      { initialState with patchInflight := true } (by decide)⟩

/-- C4: changing any filter field to a new value updates the field and
fires the watcher (line 141), which runs `fetchData()` with no caller
params — so the single emitted list request carries the new filter values
and no `page` key. -/
theorem C4_filter_change_refetch (s : CState) (fld : FilterField) (v : JsVal)
    (h : v ≠ s.filterParams.get fld) :
    (step s (Event.changeFilter fld v)).1.filterParams
        = s.filterParams.set fld v
  ∧ (step s (Event.changeFilter fld v)).2 =
      [Request.getArticles
        (buildGetParams [] (s.filterParams.set fld v) s.serarchKeyword)]
  ∧ lookupKey
      (buildGetParams [] (s.filterParams.set fld v) s.serarchKeyword) "page"
        = none := by
  refine ⟨?_, ?_, ?_⟩
  · simp [step, h, fetchData]
  · simp [step, h, fetchData]
  · rw [lookup_buildGetParams_other [] (s.filterParams.set fld v)
      s.serarchKeyword "page" (by simp) (by decide) (by decide)]
    rfl

/-- Witness for C4: selecting the `published` state over the initial
state. -/
theorem C4_filter_change_refetch_witness :
    (step initialState
        (Event.changeFilter FilterField.state (JsVal.vstr "published"))).1.filterParams
      = initialState.filterParams.set FilterField.state (JsVal.vstr "published")
  ∧ (step initialState
        (Event.changeFilter FilterField.state (JsVal.vstr "published"))).2 =
      [Request.getArticles
        (buildGetParams []
          (initialState.filterParams.set FilterField.state (JsVal.vstr "published"))
          initialState.serarchKeyword)]
  ∧ lookupKey
      (buildGetParams []
        (initialState.filterParams.set FilterField.state (JsVal.vstr "published"))
        initialState.serarchKeyword) "page" = none :=
  C4_filter_change_refetch initialState FilterField.state (JsVal.vstr "published")
    (by decide)

/-- C7: each of the three remote list requests (articles, categories,
tags) runs under its own loading flag: in every reachable state, an
in-flight request implies its flag is set (lines 52, 59, 68); the
component holds no other synchronization, caching or retry state. -/
theorem C7_loading_flags (s : CState) (h : Reachable s) :
    (s.inflightArticles = true → s.loading = true)
  ∧ (s.inflightCategories = true → s.loadingCategory = true)
  ∧ (s.inflightTags = true → s.loadingTag = true) := by
  induction h with
  | init => simp [initialState]
  | next s e hr ih =>
    cases e with
    | mounted => simp [step, fetchData, fetchCategories, fetchTags]
    | changeFilter fld v =>
        by_cases hc : v = s.filterParams.get fld
        · simpa [step, hc] using ih
        · simp only [step, hc, if_neg, fetchData]
          exact ⟨by simp, by simpa using ih.2.1, by simpa using ih.2.2⟩
    | setKeyword kw => simpa [step] using ih
    | search =>
        simp only [step, fetchData]
        exact ⟨by simp, by simpa using ih.2.1, by simpa using ih.2.2⟩
    | reset =>
        have hs := resetParamsAndRefresh_spec s
        simp only [step, hs]
        exact ⟨by simp, by simpa using ih.2.1, by simpa using ih.2.2⟩
    | paginate page pageSize =>
        simp only [step, fetchData]
        exact ⟨by simp, by simpa using ih.2.1, by simpa using ih.2.2⟩
    | select ids => simpa [step] using ih
    | bulkMenu st =>
        by_cases hc : s.selectedIds.isEmpty <;>
          simpa [step, hc, handleStateChange] using ih
    | rowUpdateState a st => simpa [step, handleStateChange] using ih
    | modalOk =>
        rcases hpm : s.pendingModal with _ | ⟨ids, st⟩ <;>
          simpa [step, hpm] using ih
    | modalCancel => simpa [step] using ih
    | articlesResolved r =>
        simp only [step]
        exact ⟨by simp, by simpa using ih.2.1, by simpa using ih.2.2⟩
    | categoriesResolved tree =>
        simp only [step]
        exact ⟨by simpa using ih.1, by simp, by simpa using ih.2.2⟩
    | tagsResolved ts =>
        simp only [step]
        exact ⟨by simpa using ih.1, by simpa using ih.2.1, by simp⟩
    | patchResolved =>
        by_cases hc : s.patchInflight
        · simp only [step, hc, if_pos, refreshData, fetchData]
          exact ⟨by simp, by simpa using ih.2.1, by simpa using ih.2.2⟩
        · simpa [step, hc] using ih

/-- Witness for C7: the invariant at the initial state. -/
theorem C7_loading_flags_witness :
    (initialState.inflightArticles = true → initialState.loading = true)
  ∧ (initialState.inflightCategories = true →
      initialState.loadingCategory = true)
  ∧ (initialState.inflightTags = true → initialState.loadingTag = true) :=
  C7_loading_flags initialState Reachable.init

/-- C9: after a confirmed bulk update resolves, `refreshData` re-fetches
with the current pagination's page and page size (lines 121-126), so the
pagination position survives the update; with no pagination yet, both
parameters are `undefined` and therefore not part of the effective
query. -/
theorem C9_refresh_preserves_page (s : CState) (h : s.patchInflight = true) :
    (step s Event.patchResolved).2 =
      [Request.getArticles
        (buildGetParams (refreshParams s) s.filterParams s.serarchKeyword)]
  ∧ (∀ pg : Pagination, s.article_pagination = some pg →
      lookupKey
          (buildGetParams (refreshParams s) s.filterParams s.serarchKeyword)
          "page" = some (JsVal.vnum pg.current_page)
      ∧ lookupKey
          (buildGetParams (refreshParams s) s.filterParams s.serarchKeyword)
          "per_page" = some (JsVal.vnum pg.per_page))
  ∧ (s.article_pagination = none →
      hasDefinedKey
          (buildGetParams (refreshParams s) s.filterParams s.serarchKeyword)
          "page" = false
      ∧ hasDefinedKey
          (buildGetParams (refreshParams s) s.filterParams s.serarchKeyword)
          "per_page" = false) := by
  have hnd : ((refreshParams s).map Prod.fst).Nodup := by
    rw [show (refreshParams s).map Prod.fst = ["page", "per_page"] from rfl]
    decide
  refine ⟨?_, ?_, ?_⟩
  · simp [step, h, refreshData, fetchData, refreshParams]
  · intro pg hpg
    constructor
    · rw [lookup_buildGetParams_other (refreshParams s) s.filterParams
        s.serarchKeyword "page" hnd (by decide) (by decide)]
      simp [refreshParams, lookupKey, hpg, isAllValue]
    · rw [lookup_buildGetParams_other (refreshParams s) s.filterParams
        s.serarchKeyword "per_page" hnd (by decide) (by decide)]
      simp [refreshParams, lookupKey, hpg, isAllValue]
  · intro hpg
    constructor
    · unfold hasDefinedKey
      rw [lookup_buildGetParams_other (refreshParams s) s.filterParams
        s.serarchKeyword "page" hnd (by decide) (by decide)]
      simp [refreshParams, lookupKey, hpg, isAllValue]
    · unfold hasDefinedKey
      rw [lookup_buildGetParams_other (refreshParams s) s.filterParams
        s.serarchKeyword "per_page" hnd (by decide) (by decide)]
      simp [refreshParams, lookupKey, hpg, isAllValue]

/-- Witness for C9: refresh after a patch, with the cursor on page 3. -/
theorem C9_refresh_preserves_page_witness :
    lookupKey
      (buildGetParams
        (refreshParams
          { initialState with
            patchInflight := true,
            article_pagination :=
              some { current_page := 3, per_page := 10, total := 100 } })
        ({ initialState with
           patchInflight := true,
           article_pagination :=
             some { current_page := 3, per_page := 10, total := 100 } } : CState).filterParams
        ({ initialState with
           patchInflight := true,
           article_pagination :=
             some { current_page := 3, per_page := 10, total := 100 } } : CState).serarchKeyword)
      "page" = some (JsVal.vnum 3) :=
  ((C9_refresh_preserves_page
      { initialState with
        patchInflight := true,
        article_pagination :=
          some { current_page := 3, per_page := 10, total := 100 } }
      (by decide)).2.1
    { current_page := 3, per_page := 10, total := 100 } rfl).1

/-- C10: the bulk dropdown is disabled exactly when the selection is
empty (line 321); an enabled bulk action opens the modal over the
non-empty selection; the per-row handler always passes a singleton id
list (line 351); hence a pending state change never carries an empty id
list in any reachable state. -/
theorem C10_no_empty_bulk :
    (∀ s : CState, dropdownDisabled s = true ↔ s.selectedIds = [])
  ∧ (∀ (s : CState) (st : PublishState), s.selectedIds ≠ [] →
      step s (Event.bulkMenu st) =
        ({ s with pendingModal := some (s.selectedIds, st) }, []))
  ∧ (∀ (s : CState) (st : PublishState), s.selectedIds = [] →
      step s (Event.bulkMenu st) = (s, []))
  ∧ (∀ (s : CState) (a : Article) (st : PublishState),
      step s (Event.rowUpdateState a st) =
        ({ s with pendingModal := some ([a._id], st) }, [])
      ∧ ([a._id] : List String).length = 1)
  ∧ (∀ (s : CState) (ids : List String) (st : PublishState),
      Reachable s → s.pendingModal = some (ids, st) → ids ≠ []) := by
  refine ⟨?_, ?_, ?_, fun _ _ _ => ⟨rfl, rfl⟩, ?_⟩
  · intro s
    simp [dropdownDisabled, List.isEmpty_iff]
  · intro s st hne
    have hc : s.selectedIds.isEmpty = false := by
      simpa [List.isEmpty_iff] using hne
    simp [step, hc, handleStateChange]
  · intro s st he
    simp [step, he]
  · intro s ids st hr
    induction hr with
    | init =>
        intro hpm
        simp [initialState] at hpm
    | next s e hr ih =>
      cases e with
      | mounted => simpa [step, fetchData, fetchCategories, fetchTags] using ih
      | changeFilter fld v =>
          by_cases hc : v = s.filterParams.get fld <;>
            simpa [step, hc, fetchData] using ih
      | setKeyword kw => simpa [step] using ih
      | search => simpa [step, fetchData] using ih
      | reset =>
          have hs := resetParamsAndRefresh_spec s
          simpa [step, hs] using ih
      | paginate page pageSize => simpa [step, fetchData] using ih
      | select ids2 => simpa [step] using ih
      | bulkMenu st2 =>
          by_cases hc : s.selectedIds.isEmpty
          · simpa [step, hc] using ih
          · intro hpm
            simp [step, hc, handleStateChange] at hpm
            intro hnil
            rw [hpm.1, hnil] at hc
            simp at hc
      | rowUpdateState a st2 =>
          intro hpm
          simp [step, handleStateChange] at hpm
          intro hnil
          exact absurd (hpm.1.trans hnil) (by simp)
      | modalOk =>
          rcases hpm : s.pendingModal with _ | ⟨ids2, st2⟩
          · intro hc
            simp [step, hpm] at hc
          · intro hc
            simp [step, hpm] at hc
      | modalCancel =>
          intro hc
          simp [step] at hc
      | articlesResolved r => simpa [step] using ih
      | categoriesResolved tree => simpa [step] using ih
      | tagsResolved ts => simpa [step] using ih
      | patchResolved =>
          by_cases hc : s.patchInflight <;>
            simpa [step, hc, refreshData, fetchData] using ih

/-- Witness for C10: selecting one row then opening the bulk menu over
the initial state. -/
theorem C10_no_empty_bulk_witness :
    (dropdownDisabled initialState = true ↔ initialState.selectedIds = [])
  ∧ (["a"] : List String) ≠ []
  ∧ step { initialState with selectedIds := ["a"] }
        (Event.bulkMenu PublishState.Draft) =
      ({ { initialState with selectedIds := ["a"] } with
          pendingModal := some (["a"], PublishState.Draft) }, []) :=
  ⟨C10_no_empty_bulk.1 initialState,
   C10_no_empty_bulk.2.2.2.2
     (step (step initialState (Event.select ["a"])).1
       (Event.bulkMenu PublishState.Draft)).1
     ["a"] PublishState.Draft
     (Reachable.next (step initialState (Event.select ["a"])).1
       (Event.bulkMenu PublishState.Draft)
       (Reachable.next initialState (Event.select ["a"]) Reachable.init))
     (by decide),
   C10_no_empty_bulk.2.1 { initialState with selectedIds := ["a"] }
     PublishState.Draft (by decide)⟩

end VeactAdmin
